import Mathlib

/-!
Verification of the `svc` service-lifecycle manager (`src/main.rs`).

The program shells out to OS primitives (powershell process enumeration,
`reg` auto-start registry add/query/delete, `taskkill`, process spawn).
We embed it shallowly: an `Env` record holds the outcome every external
command invocation would produce during one program invocation, and each
Rust function becomes a Lean function from `Env` to a result paired with
the trace of external calls it issued (`List Effect`).  Terminal output
(`println`, colorization) is presentation and is not modelled.
-/

namespace Svc

/-- Models `std::io::Error`: only its display message is observable here. -/
structure IoErr where
  msg : String
deriving DecidableEq

/-- Models `std::process::ExitStatus`: `code()` returns `Option<i32>`
(`none` when the process was terminated without an exit code). -/
structure ExitStatus where
  code : Option Int
deriving DecidableEq

/-- Models `ExitStatus::success()`: true iff `code() == Some(0)`. -/
def ExitStatus.success (st : ExitStatus) : Bool :=
  st.code == some 0

/-- Models `Display` for `ExitStatus` ("exit code: N" on the Windows
target; the hexadecimal NTSTATUS form and the Unix signal form are
presentation variants not relevant to the claims). -/
def ExitStatus.render (st : ExitStatus) : String :=
  match st.code with
  | some n => "exit code: " ++ toString n
  | none => "terminated abnormally"

/-- Models `enum SvcError` of `src/main.rs` (payloads reduced to their
observable message). -/
inductive SvcError where
  | serviceIsRunning
  | serviceIsNotRunning
  | serviceIsDisabled
  | serviceIsEnabled
  | ioError (e : IoErr)
  | yamlError (msg : String)
  | cannotReadPID
  | failedToParsePID
  | failedToConvertUtf8
deriving DecidableEq

/-- Models `enum ServiceType`. -/
inductive ServiceType where
  | Executable
  | Util
deriving DecidableEq

/-- Models `struct Service` (the YAML record: `name`, `path`, `type`,
`interpreter` defaulting to "python", `work_at` defaulting to ""). -/
structure Service where
  name : String
  path : String
  service_type : ServiceType
  interpreter : String
  work_at : String
deriving DecidableEq

/-- Models `struct ServiceStatus`. -/
structure ServiceStatus where
  pids : List Nat
  is_start_up : Bool
deriving DecidableEq

/-- One external command invocation issued by the program.  `cwd = none`
models a `Command` on which `current_dir` was never called. -/
inductive Effect where
  | procQuery (pathFragment : String)
  | regQuery (key name : String)
  | regAdd (key name data : String)
  | regDelete (key name : String)
  | spawnDetached (path : String) (cwd : Option String)
  | spawnWait (prog : String) (args : List String) (cwd : Option String)
  | taskkill (pid : Nat)
deriving DecidableEq

/-- An effect that launches the service's program (`Command::spawn` for
executables, `Command::status` for utilities). -/
def Effect.isLaunch : Effect → Bool
  | .spawnDetached _ _ => true
  | .spawnWait _ _ _ => true
  | _ => false

/-- Outcomes the external world would hand back to each of the program's
command invocations during one run.  `Except.error` models the `Command`
API itself failing (e.g. the binary cannot be spawned); `Except.ok`
carries what the invocation observed.  `procQueryResult` carries the raw
stdout bytes of the powershell process enumeration. -/
structure Env where
  procQueryResult : Except IoErr (List Nat)
  regQueryStatus : Except IoErr ExitStatus
  regAddStatus : Except IoErr ExitStatus
  regDeleteStatus : Except IoErr ExitStatus
  spawnResult : Except IoErr Unit
  utilStatus : Except IoErr ExitStatus
  taskkillResult : Nat → Except IoErr Unit

/-! ### String primitives used by `get_status`

`stdout.lines().filter_map(|line| line.trim().parse::<u64>().ok())`:
we model Rust's `str::lines`, `str::trim` and `u64::from_str`. -/

/-- Models Rust `char::is_whitespace` (the Unicode `White_Space` set). -/
def isRustWhitespace (c : Char) : Bool :=
  [0x09, 0x0A, 0x0B, 0x0C, 0x0D, 0x20, 0x85, 0xA0, 0x1680,
   0x2000, 0x2001, 0x2002, 0x2003, 0x2004, 0x2005, 0x2006, 0x2007,
   0x2008, 0x2009, 0x200A, 0x2028, 0x2029, 0x202F, 0x205F, 0x3000].contains c.toNat

/-- Models Rust `str::trim`: strip leading and trailing whitespace. -/
def rustTrim (s : List Char) : List Char :=
  ((s.dropWhile isRustWhitespace).reverse.dropWhile isRustWhitespace).reverse

/-- Split on newline characters; yields one piece more than the number of
newlines ("" gives `[[]]`). -/
def splitNl : List Char → List (List Char)
  | [] => [[]]
  | c :: rest =>
    if c = '\n' then [] :: splitNl rest
    else
      match splitNl rest with
      | [] => [[c]]
      | l :: ls => (c :: l) :: ls

/-- Drop at most one trailing carriage return, as Rust `str::lines` does
to each line. -/
def stripCr (l : List Char) : List Char :=
  match l.getLast? with
  | some '\r' => l.dropLast
  | _ => l

/-- Models Rust `str::lines`: split on `'\n'`, drop a final empty piece
(so a trailing newline adds no line), strip one trailing `'\r'` per line. -/
def rustLines (s : List Char) : List (List Char) :=
  let parts := splitNl s
  let parts := if parts.getLast? = some [] then parts.dropLast else parts
  parts.map stripCr

/-- Models Rust `"…".parse::<u64>()` (`u64::from_str`): an optional
leading `'+'`, then one or more ASCII digits, rejecting the empty digit
string and values that do not fit in 64 bits. -/
def parseU64 (s : List Char) : Option Nat :=
  let digits := match s with
    | '+' :: rest => rest
    | _ => s
  if digits = [] then none
  else if digits.all Char.isDigit then
    let v := digits.foldl (fun acc c => acc * 10 + (c.toNat - 48)) 0
    if v < 2 ^ 64 then some v else none
  else none

/-- Lines 204-207 of `src/main.rs`: collect, from each line of the
enumeration output, the trimmed text parsed as `u64`, silently dropping
lines that fail to parse. -/
def parsePids (stdout : List Char) : List Nat :=
  (rustLines stdout).filterMap (fun l => parseU64 (rustTrim l))

/-! ### UTF-8 decoding

`String::from_utf8_lossy` is total: ill-formed byte sequences become
replacement characters, never an error. -/

/-- The Unicode replacement character U+FFFD. -/
def replChar : Char := Char.ofNat 0xFFFD

/-- A UTF-8 continuation byte. -/
def isCont (b : Nat) : Bool := decide (0x80 ≤ b ∧ b ≤ 0xBF)

/-- Allowed first continuation byte after a three-byte leading byte
(restricted ranges for 0xE0 and 0xED rule out overlong forms and
surrogates). -/
def contE (b1 b2 : Nat) : Bool :=
  if b1 = 0xE0 then decide (0xA0 ≤ b2 ∧ b2 ≤ 0xBF)
  else if b1 = 0xED then decide (0x80 ≤ b2 ∧ b2 ≤ 0x9F)
  else isCont b2

/-- Allowed first continuation byte after a four-byte leading byte
(restricted ranges for 0xF0 and 0xF4 rule out overlong forms and
values beyond U+10FFFF). -/
def contF (b1 b2 : Nat) : Bool :=
  if b1 = 0xF0 then decide (0x90 ≤ b2 ∧ b2 ≤ 0xBF)
  else if b1 = 0xF4 then decide (0x80 ≤ b2 ∧ b2 ≤ 0x8F)
  else isCont b2

/-- One step of UTF-8 decoding: the character decoded from the front of
the byte sequence and the number of bytes consumed (at least 1).  An
ill-formed sequence yields U+FFFD and consumes its maximal well-formed
subpart (or a single byte), as Rust's lossy decoding does. -/
def utf8Step : List Nat → Char × Nat
  | [] => (replChar, 1)
  | b1 :: rest =>
    if b1 < 0x80 then (Char.ofNat b1, 1)
    else if 0xC2 ≤ b1 ∧ b1 ≤ 0xDF then
      match rest with
      | b2 :: _ =>
        if isCont b2 then (Char.ofNat ((b1 - 0xC0) * 0x40 + (b2 - 0x80)), 2)
        else (replChar, 1)
      | [] => (replChar, 1)
    else if 0xE0 ≤ b1 ∧ b1 ≤ 0xEF then
      match rest with
      | b2 :: rest2 =>
        if contE b1 b2 then
          match rest2 with
          | b3 :: _ =>
            if isCont b3 then
              (Char.ofNat ((b1 - 0xE0) * 0x1000 + (b2 - 0x80) * 0x40 + (b3 - 0x80)), 3)
            else (replChar, 2)
          | [] => (replChar, 2)
        else (replChar, 1)
      | [] => (replChar, 1)
    else if 0xF0 ≤ b1 ∧ b1 ≤ 0xF4 then
      match rest with
      | b2 :: rest2 =>
        if contF b1 b2 then
          match rest2 with
          | b3 :: rest3 =>
            if isCont b3 then
              match rest3 with
              | b4 :: _ =>
                if isCont b4 then
                  (Char.ofNat ((b1 - 0xF0) * 0x40000 + (b2 - 0x80) * 0x1000 +
                      (b3 - 0x80) * 0x40 + (b4 - 0x80)), 4)
                else (replChar, 3)
              | [] => (replChar, 3)
            else (replChar, 2)
          | [] => (replChar, 2)
        else (replChar, 1)
      | [] => (replChar, 1)
    else (replChar, 1)

/-- Decoding driver, structurally recursive on a fuel bound so that it
reduces in the kernel; each step consumes at least one byte, so fuel
equal to the byte count never runs out. -/
def utf8LossyGo : Nat → List Nat → List Char
  | 0, _ => []
  | _, [] => []
  | fuel + 1, b1 :: rest =>
    (utf8Step (b1 :: rest)).1 ::
      utf8LossyGo fuel ((b1 :: rest).drop (max (utf8Step (b1 :: rest)).2 1))

/-- Models `String::from_utf8_lossy`: total UTF-8 decoding with U+FFFD
substitution of maximal ill-formed subparts. -/
def fromUtf8Lossy (l : List Nat) : List Char :=
  utf8LossyGo l.length l

/-- Whether a byte sequence is well-formed UTF-8 ("can be decoded as
text" without loss). -/
def isValidUtf8 : List Nat → Bool
  | [] => true
  | b1 :: rest =>
    if b1 < 0x80 then isValidUtf8 rest
    else if 0xC2 ≤ b1 ∧ b1 ≤ 0xDF then
      match rest with
      | b2 :: rest2 => isCont b2 && isValidUtf8 rest2
      | _ => false
    else if 0xE0 ≤ b1 ∧ b1 ≤ 0xEF then
      match rest with
      | b2 :: b3 :: rest3 => contE b1 b2 && isCont b3 && isValidUtf8 rest3
      | _ => false
    else if 0xF0 ≤ b1 ∧ b1 ≤ 0xF4 then
      match rest with
      | b2 :: b3 :: b4 :: rest4 => contF b1 b2 && isCont b3 && isCont b4 && isValidUtf8 rest4
      | _ => false
    else false

/-- The byte sequence of an ASCII string (used for concrete inputs). -/
def asciiOf (s : String) : List Nat := s.data.map Char.toNat

/-! ### The Status Oracle -/

/-- The registry key string the program passes to every `reg`
invocation (verbatim, including its unbalanced leading quote). -/
def runKey : String := "\"HKCU\\SOFTWARE\\Microsoft\\Windows\\CurrentVersion\\Run"

/-- Models `get_status` (lines 188-225): run the powershell process
enumeration (`?` propagates a spawn failure as `IoError`), lossily decode
its stdout, collect the pids; then run `reg query` (again `?` on
failure) and report enabled iff its exit code is `Some(0)`. -/
def get_status (env : Env) (s : Service) : Except SvcError ServiceStatus × List Effect :=
  match env.procQueryResult with
  | .error e => (.error (.ioError e), [.procQuery s.path])
  | .ok bytes =>
    let pids := parsePids (fromUtf8Lossy bytes)
    match env.regQueryStatus with
    | .error e => (.error (.ioError e), [.procQuery s.path, .regQuery runKey s.name])
    | .ok st =>
      (.ok { pids := pids, is_start_up := st.code == some 0 },
       [.procQuery s.path, .regQuery runKey s.name])

/-! ### Working-directory resolution and the Service Lifecycle Engine -/

/-- Split on `'/'` characters (one piece more than the number of
separators). -/
def splitSlash : List Char → List (List Char)
  | [] => [[]]
  | c :: rest =>
    if c = '/' then [] :: splitSlash rest
    else
      match splitSlash rest with
      | [] => [[c]]
      | l :: ls => (c :: l) :: ls

/-- Interpose `'/'` between path components. -/
def joinSlash : List (List Char) → List Char
  | [] => []
  | [c] => c
  | c :: rest => c ++ '/' :: joinSlash rest

/-- Models `std::path::Path::parent` (composed with `to_str`) for
`'/'`-separated paths: drop the last path component; `none` for the root
path and the empty path; a `"."` component is kept only when it leads a
relative path (`Component::CurDir`).  Windows drive/UNC prefixes and
`'\'` separators are not exercised by the claims and are not modelled. -/
def pathParent (p : String) : Option String :=
  let hasRoot := match p.data with
    | '/' :: _ => true
    | _ => false
  let raw := (splitSlash p.data).filter (fun c => c ≠ [])
  let comps :=
    if hasRoot then raw.filter (fun c => c ≠ ['.'])
    else
      match raw with
      | [] => []
      | c0 :: rest => c0 :: rest.filter (fun c => c ≠ ['.'])
  match comps with
  | [] => none
  | _ => some ⟨(if hasRoot then ['/'] else []) ++ joinSlash comps.dropLast⟩

/-- Lines 123-132 of `src/main.rs`: the stored `work_at` when non-empty,
otherwise the parent directory of `path`, falling back to `"."`
(`parent().unwrap_or_else(|| Path::new("."))`). -/
def resolveWorkAt (s : Service) : String :=
  if s.work_at = "" then (pathParent s.path).getD "." else s.work_at

/-- The `current_dir` a launch `Command` receives: none when the
working-directory string is empty (`if !work_at.is_empty()`). -/
def cwdOf (work_at : String) : Option String :=
  if work_at = "" then none else some work_at

/-- Models `run_executable` (lines 78-93): spawn the binary detached;
success is the OS accepting the spawn. -/
def run_executable (env : Env) (path work_at : String) :
    Except SvcError Unit × List Effect :=
  let eff := [Effect.spawnDetached path (cwdOf work_at)]
  match env.spawnResult with
  | .error e => (.error (.ioError e), eff)
  | .ok _ => (.ok (), eff)

/-- The diagnostic message `run_util` builds on a non-success exit
(color codes elided as presentation). -/
def utilFailMsg (path : String) (st : ExitStatus) : String :=
  "Utility " ++ path ++ " failed to run with error: " ++ st.render

/-- Models `run_util` (lines 95-116): spawn `interpreter` with `path` as
its sole argument, wait for its exit status; non-success becomes an
`IoError` carrying the path and status. -/
def run_util (env : Env) (path interpreter work_at : String) :
    Except SvcError Unit × List Effect :=
  let eff := [Effect.spawnWait interpreter [path] (cwdOf work_at)]
  match env.utilStatus with
  | .error e => (.error (.ioError e), eff)
  | .ok st =>
    if st.success then (.ok (), eff)
    else (.error (.ioError ⟨utilFailMsg path st⟩), eff)

/-- Models `run_service` (lines 118-138): fail with `ServiceIsRunning`
when the status reports live pids, otherwise resolve the working
directory and dispatch on the service type. -/
def run_service (env : Env) (s : Service) : Except SvcError Unit × List Effect :=
  match get_status env s with
  | (.error e, fx) => (.error e, fx)
  | (.ok st, fx) =>
    if ¬st.pids.isEmpty then (.error .serviceIsRunning, fx)
    else
      let work_at := resolveWorkAt s
      match s.service_type with
      | .Executable =>
        let (r, fx2) := run_executable env s.path work_at
        (r, fx ++ fx2)
      | .Util =>
        let (r, fx2) := run_util env s.path s.interpreter work_at
        (r, fx ++ fx2)

/-- Models `enable_service` (lines 140-162): fail with
`ServiceIsEnabled` when already registered, otherwise `reg add` an entry
named `name` with data `"path"` (quoted); the `reg` exit status is
discarded. -/
def enable_service (env : Env) (s : Service) : Except SvcError Unit × List Effect :=
  match get_status env s with
  | (.error e, fx) => (.error e, fx)
  | (.ok st, fx) =>
    if st.is_start_up then (.error .serviceIsEnabled, fx)
    else
      let eff := fx ++ [Effect.regAdd runKey s.name ("\"" ++ s.path ++ "\"")]
      match env.regAddStatus with
      | .error e => (.error (.ioError e), eff)
      | .ok _ => (.ok (), eff)

/-- Models `disable_service` (lines 164-181): fail with
`ServiceIsDisabled` when not registered, otherwise `reg delete` the
entry named `name`; the `reg` exit status is discarded. -/
def disable_service (env : Env) (s : Service) : Except SvcError Unit × List Effect :=
  match get_status env s with
  | (.error e, fx) => (.error e, fx)
  | (.ok st, fx) =>
    if ¬st.is_start_up then (.error .serviceIsDisabled, fx)
    else
      let eff := fx ++ [Effect.regDelete runKey s.name]
      match env.regDeleteStatus with
      | .error e => (.error (.ioError e), eff)
      | .ok _ => (.ok (), eff)

/-- Models `print_status` (lines 227-270): a pure rendering of the
status; its only external calls are `get_status`'s. -/
def print_status (env : Env) (s : Service) : Except SvcError Unit × List Effect :=
  match get_status env s with
  | (.error e, fx) => (.error e, fx)
  | (.ok _, fx) => (.ok (), fx)

/-- The `for pid in pids` loop of `kill_service` (lines 279-291): invoke
`taskkill` for each pid in order; `?` on `output()` aborts the loop when
an invocation itself cannot be executed. -/
def killLoop (env : Env) : List Nat → Except SvcError Unit × List Effect
  | [] => (.ok (), [])
  | pid :: rest =>
    match env.taskkillResult pid with
    | .error e => (.error (.ioError e), [.taskkill pid])
    | .ok _ =>
      let (r, fx) := killLoop env rest
      (r, .taskkill pid :: fx)

/-- Models `kill_service` (lines 272-294): fail with
`ServiceIsNotRunning` on an empty pid set, otherwise `taskkill` each pid
sequentially. -/
def kill_service (env : Env) (s : Service) : Except SvcError Unit × List Effect :=
  match get_status env s with
  | (.error e, fx) => (.error e, fx)
  | (.ok st, fx) =>
    if st.pids.isEmpty then (.error .serviceIsNotRunning, fx)
    else
      let (r, fx2) := killLoop env st.pids
      (r, fx ++ fx2)

/-! ### The command dispatcher (`main`, lines 300-358)

Configuration loading is the external collaborator of §6 of the spec;
`main` is modelled from the point where the service list is available.
`exit(1)` paths (usage, unknown service, unknown command) are collapsed
into one outcome. -/

/-- Outcome of one program invocation. -/
inductive MainOutcome where
  | ok
  | fail (e : SvcError)
  | exitOne
deriving DecidableEq

/-- Models the `HashMap` lookup of `main`: services are inserted in
configuration order, so a duplicated name keeps the last occurrence. -/
def lookupService (config : List Service) (name : String) : Option Service :=
  config.reverse.find? (fun s => s.name == name)

/-- The single launch call the `run … at` form issues for a service. -/
def launchEffect (s : Service) (dir : String) : Effect :=
  match s.service_type with
  | .Executable => .spawnDetached s.path (cwdOf dir)
  | .Util => .spawnWait s.interpreter [s.path] (cwdOf dir)

/-- Models `main` after configuration loading: dispatch on the argument
vector (`args` includes the program name as its head). -/
def svcMain (config : List Service) (args : List String) (env : Env) :
    MainOutcome × List Effect :=
  match args with
  | [_, cmd, name, atKw, dir] =>
    if cmd = "run" ∧ atKw = "at" then
      match lookupService config name with
      | some s =>
        let (r, fx) :=
          match s.service_type with
          | .Executable => run_executable env s.path dir
          | .Util => run_util env s.path s.interpreter dir
        (match r with | .ok _ => .ok | .error e => .fail e, fx)
      | none => (.exitOne, [])
    else (.exitOne, [])
  | [_, cmd, name] =>
    match lookupService config name with
    | some s =>
      match cmd with
      | "run" =>
        let (r, fx) := run_service env s
        (match r with | .ok _ => .ok | .error e => .fail e, fx)
      | "enable" =>
        let (r, fx) := enable_service env s
        (match r with | .ok _ => .ok | .error e => .fail e, fx)
      | "disable" =>
        let (r, fx) := disable_service env s
        (match r with | .ok _ => .ok | .error e => .fail e, fx)
      | "status" =>
        let (r, fx) := print_status env s
        (match r with | .ok _ => .ok | .error e => .fail e, fx)
      | "kill" =>
        let (r, fx) := kill_service env s
        (match r with | .ok _ => .ok | .error e => .fail e, fx)
      | _ => (.exitOne, [])
    | none => (.exitOne, [])
  | _ => (.exitOne, [])

/-! ### Helper lemmas -/

instance {ε α : Type} [DecidableEq ε] [DecidableEq α] : DecidableEq (Except ε α) := fun x y =>
  match x, y with
  | .ok a, .ok b => if h : a = b then .isTrue (by rw [h]) else .isFalse (by simp [h])
  | .error a, .error b => if h : a = b then .isTrue (by rw [h]) else .isFalse (by simp [h])
  | .ok _, .error _ => .isFalse (by simp)
  | .error _, .ok _ => .isFalse (by simp)

/-- When `get_status` succeeds, both underlying commands ran: the status
is determined by the enumeration bytes and the `reg query` exit code,
and the trace is exactly the two query invocations. -/
lemma getStatus_ok (env : Env) (s : Service) (st : ServiceStatus)
    (h : (get_status env s).1 = .ok st) :
    ∃ bytes rst, env.procQueryResult = .ok bytes ∧ env.regQueryStatus = .ok rst ∧
      st = ⟨parsePids (fromUtf8Lossy bytes), rst.code == some 0⟩ ∧
      (get_status env s).2 = [.procQuery s.path, .regQuery runKey s.name] := by
  cases hp : env.procQueryResult with
  | error e => simp [get_status, hp] at h
  | ok bytes =>
    cases hq : env.regQueryStatus with
    | error e => simp [get_status, hp, hq] at h
    | ok rst =>
      refine ⟨bytes, rst, rfl, rfl, ?_, ?_⟩
      · simp [get_status, hp, hq] at h
        exact h.symm
      · simp [get_status, hp, hq]

/-- The two query effects of a successful `get_status` are not launches. -/
lemma getStatus_ok_no_launch (env : Env) (s : Service) (st : ServiceStatus)
    (h : (get_status env s).1 = .ok st) :
    ∀ e ∈ (get_status env s).2, e.isLaunch = false := by
  obtain ⟨_, _, _, _, _, hfx⟩ := getStatus_ok env s st h
  intro e he
  rw [hfx] at he
  simp only [List.mem_cons, List.not_mem_nil, or_false] at he
  rcases he with rfl | rfl <;> rfl

/-- `run_service` when the status reports live pids: the precondition
failure, with no effects beyond the status queries. -/
lemma run_service_running (env : Env) (s : Service) (st : ServiceStatus)
    (h : (get_status env s).1 = .ok st) (hne : st.pids ≠ []) :
    run_service env s = (.error .serviceIsRunning, (get_status env s).2) := by
  rcases hp : get_status env s with ⟨r, fx⟩
  rw [hp] at h
  simp only at h
  subst h
  simp [run_service, hp, List.isEmpty_iff, hne]

/-- `run_service` when the status reports no pids: the launch is
attempted in the resolved working directory. -/
lemma run_service_stopped (env : Env) (s : Service) (st : ServiceStatus)
    (h : (get_status env s).1 = .ok st) (he : st.pids = []) :
    (run_service env s).2 = (get_status env s).2 ++ [launchEffect s (resolveWorkAt s)] := by
  rcases hp : get_status env s with ⟨r, fx⟩
  rw [hp] at h
  simp only at h
  subst h
  cases hty : s.service_type with
  | Executable =>
    cases hs : env.spawnResult <;>
      simp [run_service, hp, he, hty, run_executable, launchEffect, hs]
  | Util =>
    cases hs : env.utilStatus with
    | error e => simp [run_service, hp, he, hty, run_util, launchEffect, hs]
    | ok ust =>
      by_cases hsu : ust.success <;>
        simp [run_service, hp, he, hty, run_util, launchEffect, hs, hsu]

/-! ### Concrete fixtures for witnesses and counterexamples -/

/-- An Executable-type service with no stored working directory. -/
def svcExe : Service := ⟨"app", "/a/b/c.exe", .Executable, "python", ""⟩

/-- A Util-type service (the spec's §8 scenario). -/
def svcUtil : Service := ⟨"tool", "/srv/tool.py", .Util, "python", ""⟩

/-- A world where every command runs: no matching processes, the
auto-start entry absent (`reg query` exits 1), all mutations accepted. -/
def baseEnv : Env :=
  { procQueryResult := .ok (asciiOf "")
  , regQueryStatus := .ok ⟨some 1⟩
  , regAddStatus := .ok ⟨some 0⟩
  , regDeleteStatus := .ok ⟨some 0⟩
  , spawnResult := .ok ()
  , utilStatus := .ok ⟨some 0⟩
  , taskkillResult := fun _ => .ok () }

/-- Same world but the process enumeration reports two live pids. -/
def busyEnv : Env := { baseEnv with procQueryResult := .ok (asciiOf "1234\n5678\n") }

/-! ### Claims -/

/-- Claim C1: for every service, when the Status Oracle reports a
non-empty live-process set, `run` fails with `ServiceIsRunning` (the
spec's `AlreadyRunning`) and attempts no launch; when it reports an
empty set, `run` attempts a launch. -/
theorem run_respects_running_precondition (env : Env) (s : Service) (st : ServiceStatus)
    (h : (get_status env s).1 = .ok st) :
    (st.pids ≠ [] → (run_service env s).1 = .error .serviceIsRunning ∧
      ∀ e ∈ (run_service env s).2, e.isLaunch = false) ∧
    (st.pids = [] → ∃ e ∈ (run_service env s).2, e.isLaunch = true) := by
  constructor
  · intro hne
    have hr := run_service_running env s st h hne
    constructor
    · rw [hr]
    · rw [hr]
      exact getStatus_ok_no_launch env s st h
  · intro he
    have hr := run_service_stopped env s st h he
    refine ⟨launchEffect s (resolveWorkAt s), ?_, ?_⟩
    · rw [hr]
      simp
    · cases hty : s.service_type <;> simp [launchEffect, hty, Effect.isLaunch]

/-- Witness for C1 at concrete inputs: with pids {1234, 5678} reported,
`run` fails and launches nothing; with none reported, it launches. -/
theorem run_respects_running_precondition_witness :
    (run_service busyEnv svcExe).1 = .error .serviceIsRunning ∧
    (∃ e ∈ (run_service baseEnv svcExe).2, e.isLaunch = true) := by
  constructor
  · exact ((run_respects_running_precondition busyEnv svcExe ⟨[1234, 5678], false⟩
      (by decide)).1 (by decide)).1
  · exact (run_respects_running_precondition baseEnv svcExe ⟨[], false⟩
      (by decide)).2 rfl

/-- The kill loop under a fully cooperative Process Controller: every
pid gets exactly one `taskkill`, in pid-list order. -/
lemma killLoop_all_ok (env : Env) (pids : List Nat)
    (h : ∀ pid ∈ pids, env.taskkillResult pid = .ok ()) :
    killLoop env pids = (.ok (), pids.map Effect.taskkill) := by
  induction pids with
  | nil => rfl
  | cons pid rest ih =>
    have hp : env.taskkillResult pid = .ok () := h pid (by simp)
    have hr := ih (fun q hq => h q (by simp [hq]))
    simp [killLoop, hp, hr]

/-- A world with two live pids where the `taskkill` command itself
cannot be executed. -/
def killFailEnv : Env :=
  { busyEnv with taskkillResult := fun _ => .error ⟨"taskkill missing"⟩ }

/-- Counterexample to C2 as stated: the Status Oracle reports pids
{1234, 5678}, yet `kill` never issues a termination call for 5678 — the
failed invocation for 1234 aborts the loop (`?` on `output()`). -/
theorem kill_every_pid_counterexample :
    (get_status killFailEnv svcExe).1 = .ok ⟨[1234, 5678], false⟩ ∧
    Effect.taskkill 1234 ∈ (kill_service killFailEnv svcExe).2 ∧
    Effect.taskkill 5678 ∉ (kill_service killFailEnv svcExe).2 ∧
    (kill_service killFailEnv svcExe).1 =
      .error (.ioError ⟨"taskkill missing"⟩) := by decide

/-- Claim C2 (amended): with an empty live-process set, `kill` fails
with `ServiceIsNotRunning` (the spec's `NotRunning`) and invokes no
termination call; with a non-empty set it issues termination calls
sequentially in pid order, stopping early only if a `taskkill`
invocation itself cannot be executed — when all invocations are
executable, every matched pid receives exactly one call. -/
theorem kill_respects_not_running_precondition (env : Env) (s : Service)
    (st : ServiceStatus) (h : (get_status env s).1 = .ok st) :
    (st.pids = [] → (kill_service env s).1 = .error .serviceIsNotRunning ∧
      ∀ pid, Effect.taskkill pid ∉ (kill_service env s).2) ∧
    (st.pids ≠ [] → (∀ pid ∈ st.pids, env.taskkillResult pid = .ok ()) →
      (kill_service env s).1 = .ok () ∧
      (kill_service env s).2 = (get_status env s).2 ++ st.pids.map Effect.taskkill) := by
  obtain ⟨bytes, rst, _, _, _, hfx⟩ := getStatus_ok env s st h
  rcases hp : get_status env s with ⟨r, fx⟩
  rw [hp] at h hfx
  simp only at h hfx
  subst h
  constructor
  · intro he
    constructor
    · simp [kill_service, hp, he]
    · intro pid
      simp [kill_service, hp, he, hfx]
  · intro hne hok
    have hl := killLoop_all_ok env st.pids hok
    constructor
    · simp [kill_service, hp, List.isEmpty_iff, hne, hl]
    · simp [kill_service, hp, List.isEmpty_iff, hne, hl]

/-- Witness for the amended C2 at concrete inputs: no pids reported
gives the precondition failure; pids {1234, 5678} with a cooperative
controller give exactly the two sequential calls. -/
theorem kill_respects_not_running_precondition_witness :
    ((kill_service baseEnv svcExe).1 = .error .serviceIsNotRunning) ∧
    ((kill_service busyEnv svcExe).2 = (get_status busyEnv svcExe).2 ++
      [Effect.taskkill 1234, Effect.taskkill 5678]) := by
  constructor
  · exact ((kill_respects_not_running_precondition baseEnv svcExe ⟨[], false⟩
      (by decide)).1 rfl).1
  · exact ((kill_respects_not_running_precondition busyEnv svcExe ⟨[1234, 5678], false⟩
      (by decide)).2 (by decide) (fun pid _ => rfl)).2

/-- Claim C3: the Status Oracle's pid list consists of exactly the
enumeration-output lines whose trimmed text parses as an unsigned
integer; unparsable lines are dropped without an error, and
"1234\nNOTANUMBER\n5678\n" yields exactly {1234, 5678}. -/
theorem pid_parsing_exactly_numeric_lines (env : Env) (s : Service)
    (bytes : List Nat) (rst : ExitStatus)
    (h1 : env.procQueryResult = .ok bytes) (h2 : env.regQueryStatus = .ok rst) :
    (get_status env s).1 =
      .ok ⟨parsePids (fromUtf8Lossy bytes), rst.code == some 0⟩ ∧
    (∀ n, n ∈ parsePids (fromUtf8Lossy bytes) ↔
      ∃ l ∈ rustLines (fromUtf8Lossy bytes), parseU64 (rustTrim l) = some n) ∧
    parsePids (fromUtf8Lossy (asciiOf "1234\nNOTANUMBER\n5678\n")) = [1234, 5678] := by
  refine ⟨?_, ?_, by decide⟩
  · simp [get_status, h1, h2]
  · intro n
    simp [parsePids, List.mem_filterMap]

/-- Witness for C3 at a concrete input: the mixed-garbage enumeration
output of the claim produces exactly the pids 1234 and 5678. -/
theorem pid_parsing_exactly_numeric_lines_witness :
    parsePids (fromUtf8Lossy (asciiOf "1234\nNOTANUMBER\n5678\n")) = [1234, 5678] :=
  (pid_parsing_exactly_numeric_lines busyEnv svcExe (asciiOf "1234\n5678\n") ⟨some 1⟩
    rfl rfl).2.2

/-- Claim C4: the auto-start flag is reported enabled iff the `reg
query` exit code is zero; every other exit outcome of the query command
(non-zero code, or no code at all) is reported as disabled, never
propagated as an error. -/
theorem startup_flag_iff_zero_exit (env : Env) (s : Service)
    (bytes : List Nat) (rst : ExitStatus)
    (h1 : env.procQueryResult = .ok bytes) (h2 : env.regQueryStatus = .ok rst) :
    ∃ st, (get_status env s).1 = .ok st ∧ (st.is_start_up = true ↔ rst.code = some 0) := by
  refine ⟨⟨parsePids (fromUtf8Lossy bytes), rst.code == some 0⟩, ?_, ?_⟩
  · simp [get_status, h1, h2]
  · simp

/-- A world where the auto-start query command runs but exits with
code 2. -/
def regExit2Env : Env := { baseEnv with regQueryStatus := .ok ⟨some 2⟩ }

/-- Witness for C4 at a concrete input: with `reg query` exiting 2,
`get_status` still succeeds and reports disabled. -/
theorem startup_flag_iff_zero_exit_witness :
    ∃ st, (get_status regExit2Env svcExe).1 = .ok st ∧
      (st.is_start_up = true ↔ (⟨some 2⟩ : ExitStatus).code = some 0) :=
  startup_flag_iff_zero_exit regExit2Env svcExe (asciiOf "") ⟨some 2⟩ rfl rfl

/-- A world whose process-enumeration stdout is the single byte 0xFF,
which is not valid UTF-8. -/
def rawBytesEnv : Env := { baseEnv with procQueryResult := .ok [0xFF] }

/-- Counterexample to C5 as stated: the enumeration output cannot be
decoded as text (0xFF is ill-formed UTF-8), yet `get_status` does not
fail — `String::from_utf8_lossy` substitutes U+FFFD and the oracle
returns an ordinary status. -/
theorem get_status_decode_counterexample :
    isValidUtf8 [0xFF] = false ∧
    rawBytesEnv.procQueryResult = .ok [0xFF] ∧
    (get_status rawBytesEnv svcExe).1 = .ok ⟨[], false⟩ := by decide

/-- Claim C5 (amended): `get_status` fails with `IoError` exactly when
an underlying command invocation cannot be executed (the process
enumeration, else the auto-start lookup); enumeration output that is
not valid UTF-8 is decoded lossily and never causes a failure. -/
theorem get_status_iofailure_on_command_failure (env : Env) (s : Service) :
    (∀ e, env.procQueryResult = .error e →
      (get_status env s).1 = .error (.ioError e)) ∧
    (∀ bytes e, env.procQueryResult = .ok bytes → env.regQueryStatus = .error e →
      (get_status env s).1 = .error (.ioError e)) ∧
    (∀ bytes rst, env.procQueryResult = .ok bytes → env.regQueryStatus = .ok rst →
      ∃ st, (get_status env s).1 = .ok st) := by
  refine ⟨?_, ?_, ?_⟩
  · intro e he
    simp [get_status, he]
  · intro bytes e hb he
    simp [get_status, hb, he]
  · intro bytes rst hb hr
    exact ⟨⟨parsePids (fromUtf8Lossy bytes), rst.code == some 0⟩,
      by simp [get_status, hb, hr]⟩

/-- A world where the powershell enumeration itself cannot be spawned. -/
def procFailEnv : Env :=
  { baseEnv with procQueryResult := .error ⟨"powershell missing"⟩ }

/-- Witness for the amended C5 at a concrete input: an unexecutable
process enumeration surfaces as `IoError`. -/
theorem get_status_iofailure_on_command_failure_witness :
    (get_status procFailEnv svcExe).1 = .error (.ioError ⟨"powershell missing"⟩) :=
  (get_status_iofailure_on_command_failure procFailEnv svcExe).1
    ⟨"powershell missing"⟩ rfl

/-- Claim C6: under the normal `run` command the working directory
resolves to `work_at` when non-empty, else to the parent directory of
`path`, else to `"."` (the current directory); `work_at=""` with
`path="/a/b/c.exe"` gives `/a/b`, and `work_at="/x/y"` gives `/x/y`
regardless of `path`; the launch uses the resolved directory. -/
theorem workdir_resolution :
    (∀ s : Service, s.work_at ≠ "" → resolveWorkAt s = s.work_at) ∧
    (∀ s : Service, s.work_at = "" → resolveWorkAt s = (pathParent s.path).getD ".") ∧
    resolveWorkAt svcExe = "/a/b" ∧
    (∀ s : Service, s.work_at = "/x/y" → resolveWorkAt s = "/x/y") ∧
    (∀ (env : Env) (s : Service) (st : ServiceStatus),
      (get_status env s).1 = .ok st → st.pids = [] →
      (run_service env s).2 = (get_status env s).2 ++ [launchEffect s (resolveWorkAt s)]) := by
  refine ⟨?_, ?_, by decide, ?_, ?_⟩
  · intro s hne
    simp [resolveWorkAt, hne]
  · intro s he
    simp [resolveWorkAt, he]
  · intro s he
    simp [resolveWorkAt, he]
  · intro env s st h he
    exact run_service_stopped env s st h he

/-- Witness for C6 at concrete inputs: the non-empty-override case and
the parent-directory case. -/
theorem workdir_resolution_witness :
    resolveWorkAt ⟨"app", "/a/b/c.exe", .Executable, "python", "/x/y"⟩ = "/x/y" ∧
    resolveWorkAt svcExe = "/a/b" := by
  constructor
  · exact workdir_resolution.2.2.2.1 ⟨"app", "/a/b/c.exe", .Executable, "python", "/x/y"⟩ rfl
  · exact workdir_resolution.2.2.1

/-- Claim C7: for a Util service with the run precondition satisfied,
`run` spawns the interpreter with `path` as its sole argument and waits
for its exit status; a zero exit succeeds, a non-zero (or absent) exit
code yields an `IoError` whose message carries the launched path and the
exit status. -/
theorem util_run_waits_and_reports (env : Env) (s : Service)
    (st : ServiceStatus) (ust : ExitStatus)
    (hty : s.service_type = .Util)
    (h : (get_status env s).1 = .ok st) (he : st.pids = [])
    (hu : env.utilStatus = .ok ust) :
    (run_service env s).2 = (get_status env s).2 ++
      [.spawnWait s.interpreter [s.path] (cwdOf (resolveWorkAt s))] ∧
    (ust.code = some 0 → (run_service env s).1 = .ok ()) ∧
    (ust.code ≠ some 0 →
      (run_service env s).1 = .error (.ioError ⟨utilFailMsg s.path ust⟩)) ∧
    utilFailMsg s.path ust =
      "Utility " ++ s.path ++ (" failed to run with error: " ++ ust.render) := by
  rcases hp : get_status env s with ⟨r, fx⟩
  rw [hp] at h
  simp only at h
  subst h
  refine ⟨?_, ?_, ?_, ?_⟩
  · by_cases hsu : ust.success <;>
      simp [run_service, hp, he, hty, run_util, hu, hsu]
  · intro hz
    have hsu : ust.success = true := by simp [ExitStatus.success, hz]
    simp [run_service, hp, he, hty, run_util, hu, hsu]
  · intro hz
    have hsu : ust.success = false := by simp [ExitStatus.success, hz]
    simp [run_service, hp, he, hty, run_util, hu, hsu]
  · simp [utilFailMsg, String.append_assoc]

/-- A world where the utility script runs and exits with code 3. -/
def utilExit3Env : Env := { baseEnv with utilStatus := .ok ⟨some 3⟩ }

/-- Witness for C7 at concrete inputs: the spec's §8 scenario — `python
/srv/tool.py` is awaited in `/srv`, and exit code 3 surfaces as an
`IoError` naming `/srv/tool.py` and the code. -/
theorem util_run_waits_and_reports_witness :
    (run_service utilExit3Env svcUtil).2 = (get_status utilExit3Env svcUtil).2 ++
      [.spawnWait "python" ["/srv/tool.py"] (cwdOf (resolveWorkAt svcUtil))] ∧
    (run_service utilExit3Env svcUtil).1 =
      .error (.ioError ⟨utilFailMsg "/srv/tool.py" ⟨some 3⟩⟩) := by
  have h := util_run_waits_and_reports utilExit3Env svcUtil ⟨[], false⟩ ⟨some 3⟩
    rfl (by decide) rfl rfl
  exact ⟨h.1, h.2.2.1 (by decide)⟩

/-- Claim C8: `enable` on an already-registered service fails with
`ServiceIsEnabled` (the spec's `AlreadyEnabled`) and writes nothing;
`disable` on an unregistered service fails with `ServiceIsDisabled`
(`AlreadyDisabled`) and removes nothing; otherwise `enable` adds the
entry named `name` with the quoted `path` as data and `disable` deletes
the entry named `name`. -/
theorem enable_disable_preconditions (env : Env) (s : Service)
    (st : ServiceStatus) (h : (get_status env s).1 = .ok st) :
    (st.is_start_up = true →
      (enable_service env s).1 = .error .serviceIsEnabled ∧
      ∀ k n d, Effect.regAdd k n d ∉ (enable_service env s).2) ∧
    (st.is_start_up = false →
      (disable_service env s).1 = .error .serviceIsDisabled ∧
      ∀ k n, Effect.regDelete k n ∉ (disable_service env s).2) ∧
    (st.is_start_up = false →
      (enable_service env s).2 = (get_status env s).2 ++
        [.regAdd runKey s.name ("\"" ++ s.path ++ "\"")]) ∧
    (st.is_start_up = true →
      (disable_service env s).2 = (get_status env s).2 ++
        [.regDelete runKey s.name]) := by
  obtain ⟨bytes, rst, _, _, _, hfx⟩ := getStatus_ok env s st h
  rcases hp : get_status env s with ⟨r, fx⟩
  rw [hp] at h hfx
  simp only at h hfx
  subst h
  subst hfx
  refine ⟨?_, ?_, ?_, ?_⟩
  · intro hs
    constructor
    · simp [enable_service, hp, hs]
    · intro k n d
      simp [enable_service, hp, hs]
  · intro hs
    constructor
    · simp [disable_service, hp, hs]
    · intro k n
      simp [disable_service, hp, hs]
  · intro hs
    cases ha : env.regAddStatus <;> simp [enable_service, hp, hs, ha]
  · intro hs
    cases hd : env.regDeleteStatus <;> simp [disable_service, hp, hs, hd]

/-- A world where the auto-start entry is already present (`reg query`
exits 0). -/
def enabledEnv : Env := { baseEnv with regQueryStatus := .ok ⟨some 0⟩ }

/-- Witness for C8 at concrete inputs: `enable` fails when registered,
`disable` fails when not, and the mutation effects are as keyed. -/
theorem enable_disable_preconditions_witness :
    ((enable_service enabledEnv svcExe).1 = .error .serviceIsEnabled) ∧
    ((disable_service baseEnv svcExe).1 = .error .serviceIsDisabled) ∧
    ((enable_service baseEnv svcExe).2 = (get_status baseEnv svcExe).2 ++
      [.regAdd runKey "app" "\"/a/b/c.exe\""]) := by
  refine ⟨?_, ?_, ?_⟩
  · exact ((enable_disable_preconditions enabledEnv svcExe ⟨[], true⟩
      (by decide)).1 rfl).1
  · exact ((enable_disable_preconditions baseEnv svcExe ⟨[], false⟩
      (by decide)).2.1 rfl).1
  · exact (enable_disable_preconditions baseEnv svcExe ⟨[], false⟩
      (by decide)).2.2.1 rfl

/-- Claim C10: once the precondition holds, `enable` and `disable`
report success whenever the `reg` add/delete command could be spawned —
its exit status is discarded, so a non-zero registry exit is never
surfaced as an error. -/
theorem registry_exit_status_ignored (env : Env) (s : Service)
    (st : ServiceStatus) (ast dst : ExitStatus)
    (h : (get_status env s).1 = .ok st)
    (ha : env.regAddStatus = .ok ast) (hd : env.regDeleteStatus = .ok dst) :
    (st.is_start_up = false → (enable_service env s).1 = .ok ()) ∧
    (st.is_start_up = true → (disable_service env s).1 = .ok ()) := by
  rcases hp : get_status env s with ⟨r, fx⟩
  rw [hp] at h
  simp only at h
  subst h
  constructor
  · intro hs
    simp [enable_service, hp, hs, ha]
  · intro hs
    simp [disable_service, hp, hs, hd]

/-- A world where the registry mutations run but exit with code 1. -/
def regMutFailEnv : Env :=
  { baseEnv with regAddStatus := .ok ⟨some 1⟩, regDeleteStatus := .ok ⟨some 1⟩ }

/-- Witness for C10 at a concrete input: `reg add` exiting 1 still
yields success from `enable`. -/
theorem registry_exit_status_ignored_witness :
    (enable_service regMutFailEnv svcExe).1 = .ok () :=
  (registry_exit_status_ignored regMutFailEnv svcExe ⟨[], false⟩ ⟨some 1⟩ ⟨some 1⟩
    (by decide) rfl rfl).1 rfl

/-- The working directory an effect's `Command` was given. -/
def Effect.commandDir : Effect → Option String
  | .spawnDetached _ c => c
  | .spawnWait _ _ c => c
  | _ => none

/-- Claim C9: invoked as `run <service_name> at <work_dir>`, the program
issues exactly one launch for the named service with `<work_dir>` as the
working directory — the stored `work_at` plays no part — and never runs
the process enumeration, i.e. performs no already-running check. -/
theorem run_at_overrides_and_skips_check (config : List Service) (env : Env)
    (prog name atDir : String) (s : Service)
    (hl : lookupService config name = some s) :
    (svcMain config [prog, "run", name, "at", atDir] env).2 = [launchEffect s atDir] ∧
    (∀ frag, Effect.procQuery frag ∉
      (svcMain config [prog, "run", name, "at", atDir] env).2) ∧
    (atDir ≠ "" → (launchEffect s atDir).commandDir = some atDir) := by
  have hfx : (svcMain config [prog, "run", name, "at", atDir] env).2 =
      [launchEffect s atDir] := by
    cases hty : s.service_type with
    | Executable =>
      cases hs : env.spawnResult <;>
        simp [svcMain, hl, hty, run_executable, launchEffect, hs]
    | Util =>
      cases hs : env.utilStatus with
      | error e => simp [svcMain, hl, hty, run_util, launchEffect, hs]
      | ok ust =>
        by_cases hsu : ust.success <;>
          simp [svcMain, hl, hty, run_util, launchEffect, hs, hsu]
  refine ⟨hfx, ?_, ?_⟩
  · intro frag hmem
    rw [hfx] at hmem
    simp only [List.mem_singleton] at hmem
    cases hty : s.service_type <;> simp [launchEffect, hty] at hmem
  · intro hne
    cases hty : s.service_type <;>
      simp [launchEffect, hty, Effect.commandDir, cwdOf, hne]

/-- Witness for C9 at concrete inputs: `svc run app at /x/y` with the
one-service configuration `[svcExe]` spawns `/a/b/c.exe` detached in
`/x/y` (not in the stored working directory) and runs no process query. -/
theorem run_at_overrides_and_skips_check_witness :
    (svcMain [svcExe] ["svc", "run", "app", "at", "/x/y"] baseEnv).2 =
      [.spawnDetached "/a/b/c.exe" (some "/x/y")] ∧
    (∀ frag, Effect.procQuery frag ∉
      (svcMain [svcExe] ["svc", "run", "app", "at", "/x/y"] baseEnv).2) := by
  have h := run_at_overrides_and_skips_check [svcExe] baseEnv "svc" "app" "/x/y"
    svcExe (by decide)
  exact ⟨h.1, h.2.1⟩
